import Mathlib

/-!
Verification of the game_helper automation tool.

This file gives a shallow embedding, in Lean 4, of the parts of the
game_helper source that carry real invariants:

* `SimulatorManager.get_simulator_instance` / `release_simulator_instance`
  (src/simulator/manager/simulator_manager.py),
* `ADBController.get_instance`, `connect`, `disconnect`
  (src/control/adb/adb_controller.py),
* `ImageController.get_simulator_ui_bounds`, `check_resolution_ratio`
  (src/simulator_models/image/image_controller.py),
* `MuMuSimulator.launcher_simulator_game`, `_get_simulator_screen_info`
  (src/simulator/implementations/mumu/simulator_mumu.py),
* `PluginManager.execute_plugins_by_priority`
  (src/simulator_models/plugins/plugin_manager.py),
* `PluginBase.execute_with_error_handling`
  (src/plugins/base/plugin_base.py).

Python dictionaries are modelled as association lists, object identity as
a numeric id handed out by a freshness counter, and external effects
(subprocess results, downloaded XML snapshots, the interactive error
handler) as explicit inputs describing the responses the environment
gives to successive calls.
-/

namespace GameHelper

/-! ## Python string helpers

`str(n)` for a non-negative integer, modelled over `List Char`.
`Nat.digits 10 n` is least-significant-first, so the decimal rendering is
the reversed digit list; `str(0) = "0"`.
-/

def pyNatRepr (n : Nat) : List Char :=
  if n = 0 then ['0'] else ((Nat.digits 10 n).map Nat.digitChar).reverse

theorem digitChar_inj {a b : Nat} (ha : a < 10) (hb : b < 10)
    (h : Nat.digitChar a = Nat.digitChar b) : a = b := by
  interval_cases a <;> interval_cases b <;> revert h <;> decide

theorem digitChar_ne_underscore {a : Nat} (ha : a < 10) : Nat.digitChar a ≠ '_' := by
  interval_cases a <;> decide

theorem map_digitChar_inj :
    ∀ (l₁ l₂ : List Nat), (∀ x ∈ l₁, x < 10) → (∀ x ∈ l₂, x < 10) →
      l₁.map Nat.digitChar = l₂.map Nat.digitChar → l₁ = l₂
  | [], [], _, _, _ => rfl
  | [], _ :: _, _, _, h => by simp at h
  | _ :: _, [], _, _, h => by simp at h
  | a :: l₁, b :: l₂, h₁, h₂, h => by
    simp only [List.map_cons, List.cons.injEq] at h
    have ha := h₁ a (by simp)
    have hb := h₂ b (by simp)
    have : l₁ = l₂ :=
      map_digitChar_inj l₁ l₂ (fun x hx => h₁ x (by simp [hx]))
        (fun x hx => h₂ x (by simp [hx])) h.2
    simp [digitChar_inj ha hb h.1, this]

theorem pyNatRepr_inj {m n : Nat} (h : pyNatRepr m = pyNatRepr n) : m = n := by
  unfold pyNatRepr at h
  by_cases hm : m = 0 <;> by_cases hn : n = 0 <;> simp [hm, hn] at h ⊢
  · -- m = 0, n ≠ 0 : the rendering of n would be the digit list [0]
    have h' : (Nat.digits 10 n).map Nat.digitChar = ['0'] := by
      have := congrArg List.reverse h
      simpa using this.symm
    have hdig : Nat.digits 10 n = [0] := by
      apply map_digitChar_inj _ _ (fun x hx => Nat.digits_lt_base (by norm_num) hx)
        (by intro x hx; simp at hx; omega)
      simpa using h'
    have hn0 : n = Nat.ofDigits 10 (Nat.digits 10 n) := (Nat.ofDigits_digits 10 n).symm
    rw [hdig] at hn0
    simp [Nat.ofDigits_cons, Nat.ofDigits_nil] at hn0
    omega
  · -- m ≠ 0, n = 0 : symmetric
    have h' : (Nat.digits 10 m).map Nat.digitChar = ['0'] := by
      have := congrArg List.reverse h
      simpa using this
    have hdig : Nat.digits 10 m = [0] := by
      apply map_digitChar_inj _ _ (fun x hx => Nat.digits_lt_base (by norm_num) hx)
        (by intro x hx; simp at hx; omega)
      simpa using h'
    have hm0 : m = Nat.ofDigits 10 (Nat.digits 10 m) := (Nat.ofDigits_digits 10 m).symm
    rw [hdig] at hm0
    simp [Nat.ofDigits_cons, Nat.ofDigits_nil] at hm0
    omega
  · have h' : (Nat.digits 10 m).map Nat.digitChar = (Nat.digits 10 n).map Nat.digitChar := by
      have := congrArg List.reverse h
      simpa using this
    have hdig : Nat.digits 10 m = Nat.digits 10 n :=
      map_digitChar_inj _ _ (fun x hx => Nat.digits_lt_base (by norm_num) hx)
        (fun x hx => Nat.digits_lt_base (by norm_num) hx) h'
    have := congrArg (Nat.ofDigits 10) hdig
    rwa [Nat.ofDigits_digits, Nat.ofDigits_digits] at this

theorem underscore_not_mem_pyNatRepr (n : Nat) : '_' ∉ pyNatRepr n := by
  unfold pyNatRepr
  by_cases hn : n = 0 <;> simp [hn]
  intro x hx
  exact fun hh => digitChar_ne_underscore (Nat.digits_lt_base (by norm_num) hx) hh

/-- Splitting a character list at a separator character that occurs in
neither left part is unambiguous. -/
theorem sep_split :
    ∀ (l₁ l₂ r₁ r₂ : List Char), '_' ∉ l₁ → '_' ∉ l₂ →
      l₁ ++ '_' :: r₁ = l₂ ++ '_' :: r₂ → l₁ = l₂ ∧ r₁ = r₂
  | [], [], r₁, r₂, _, _, h => by simpa using h
  | [], c :: l₂, r₁, r₂, _, h₂, h => by
    simp only [List.nil_append, List.cons_append, List.cons.injEq] at h
    exact absurd (show '_' ∈ c :: l₂ by rw [← h.1]; exact List.mem_cons_self _ _) h₂
  | c :: l₁, [], r₁, r₂, h₁, _, h => by
    simp only [List.nil_append, List.cons_append, List.cons.injEq] at h
    exact absurd (show '_' ∈ c :: l₁ by rw [h.1]; exact List.mem_cons_self _ _) h₁
  | c₁ :: l₁, c₂ :: l₂, r₁, r₂, h₁, h₂, h => by
    simp only [List.cons_append, List.cons.injEq] at h
    have := sep_split l₁ l₂ r₁ r₂ (fun hm => h₁ (List.mem_cons_of_mem _ hm))
      (fun hm => h₂ (List.mem_cons_of_mem _ hm)) h.2
    exact ⟨by simp [h.1, this.1], this.2⟩

/-! ## Association-list lookup (Python dict access) -/

def lookupKey {κ α : Type} [DecidableEq κ] (k : κ) : List (κ × α) → Option α
  | [] => none
  | (k', v) :: rest => if k' = k then some v else lookupKey k rest

theorem lookupKey_mem {κ α : Type} [DecidableEq κ] {k : κ} :
    ∀ {l : List (κ × α)} {v : α}, lookupKey k l = some v → (k, v) ∈ l := by
  intro l
  induction l with
  | nil => intro v h; simp [lookupKey] at h
  | cons p rest ih =>
    intro v h
    obtain ⟨k', v'⟩ := p
    by_cases hk : k' = k
    · simp [lookupKey, hk] at h
      simp [hk, h]
    · simp [lookupKey, hk] at h
      exact List.mem_cons_of_mem _ (ih h)

theorem lookupKey_cons_self {κ α : Type} [DecidableEq κ] (k : κ) (v : α)
    (l : List (κ × α)) : lookupKey k ((k, v) :: l) = some v := by
  simp [lookupKey]

/-! ## SimulatorManager (src/simulator/manager/simulator_manager.py)

`get_simulator_instance` computes the dict key
`f"{port}_{thread_id}_{account}"` and, under the registry lock, returns
the cached `SimulatorInstance` for that key or constructs and caches a
new one.  Object identity (Python reference equality) is modelled by the
`objId` field, handed out from a freshness counter; the registry dict is
an association list. -/

structure SimulatorInstance where
  objId : Nat
  port : Nat
  account : String
  simulator_type : String
deriving DecidableEq, Repr

/-- The key `f"{port}_{thread_id}_{account}"`. -/
def simKey (port threadId : Nat) (account : String) : String :=
  ⟨pyNatRepr port ++ '_' :: pyNatRepr threadId ++ '_' :: account.data⟩

theorem simKey_inj {p₁ t₁ p₂ t₂ : Nat} {a₁ a₂ : String}
    (h : simKey p₁ t₁ a₁ = simKey p₂ t₂ a₂) : p₁ = p₂ ∧ t₁ = t₂ ∧ a₁ = a₂ := by
  have hd : pyNatRepr p₁ ++ '_' :: (pyNatRepr t₁ ++ '_' :: a₁.data)
      = pyNatRepr p₂ ++ '_' :: (pyNatRepr t₂ ++ '_' :: a₂.data) := by
    have := congrArg String.data h
    simpa [simKey] using this
  have h₁ := sep_split _ _ _ _ (underscore_not_mem_pyNatRepr p₁)
    (underscore_not_mem_pyNatRepr p₂) hd
  have h₂ := sep_split _ _ _ _ (underscore_not_mem_pyNatRepr t₁)
    (underscore_not_mem_pyNatRepr t₂) h₁.2
  exact ⟨pyNatRepr_inj h₁.1, pyNatRepr_inj h₂.1, congrArg String.mk h₂.2⟩

structure ManagerState where
  instances : List (String × SimulatorInstance)
  nextId : Nat
deriving DecidableEq, Repr

namespace SimulatorManager

def get_simulator_instance (st : ManagerState) (port threadId : Nat)
    (account simulator_type : String) : SimulatorInstance × ManagerState :=
  match lookupKey (simKey port threadId account) st.instances with
  | some inst => (inst, st)
  | none =>
    (⟨st.nextId, port, account, simulator_type⟩,
     ⟨(simKey port threadId account,
        (⟨st.nextId, port, account, simulator_type⟩ : SimulatorInstance)) :: st.instances,
      st.nextId + 1⟩)

theorem get_simulator_instance_hit {st : ManagerState} {port threadId : Nat}
    {account : String} (simulator_type : String) {inst : SimulatorInstance}
    (hl : lookupKey (simKey port threadId account) st.instances = some inst) :
    get_simulator_instance st port threadId account simulator_type = (inst, st) := by
  simp [get_simulator_instance, hl]

theorem get_simulator_instance_miss {st : ManagerState} {port threadId : Nat}
    {account : String} (simulator_type : String)
    (hl : lookupKey (simKey port threadId account) st.instances = none) :
    get_simulator_instance st port threadId account simulator_type =
      (⟨st.nextId, port, account, simulator_type⟩,
       ⟨(simKey port threadId account,
          (⟨st.nextId, port, account, simulator_type⟩ : SimulatorInstance)) :: st.instances,
        st.nextId + 1⟩) := by
  simp [get_simulator_instance, hl]

/-- Registry well-formedness: every cached id was handed out by the
counter, and no two cached entries share an object id. -/
def WF (st : ManagerState) : Prop :=
  (∀ p ∈ st.instances, p.2.objId < st.nextId) ∧
    (st.instances.map (fun p => p.2.objId)).Nodup

theorem WF_preserved (st : ManagerState) (port threadId : Nat)
    (account simulator_type : String) (h : WF st) :
    WF (get_simulator_instance st port threadId account simulator_type).2 := by
  cases hl : lookupKey (simKey port threadId account) st.instances with
  | some inst => rw [get_simulator_instance_hit simulator_type hl]; exact h
  | none =>
    rw [get_simulator_instance_miss simulator_type hl]
    constructor
    · intro p hp
      rcases List.mem_cons.mp hp with h' | h'
      · simp [h']
      · exact Nat.lt_trans (h.1 p h') (Nat.lt_succ_self _)
    · refine List.nodup_cons.mpr ⟨?_, h.2⟩
      intro hmem
      rcases List.mem_map.mp hmem with ⟨p, hp, hid⟩
      exact absurd hid (Nat.ne_of_lt (h.1 p hp))

/-- `release_simulator_instance`: cleanup (ADB disconnect, an external
effect) and eviction of the keyed entry. -/
def release_simulator_instance (st : ManagerState) (port threadId : Nat)
    (account : String) : ManagerState :=
  ⟨st.instances.filter (fun p => p.1 ≠ simKey port threadId account), st.nextId⟩

theorem lookupKey_cons_ne {κ α : Type} [DecidableEq κ] {k k' : κ} (v : α)
    (l : List (κ × α)) (h : k' ≠ k) : lookupKey k ((k', v) :: l) = lookupKey k l := by
  simp [lookupKey, h]

theorem get_objId_lt {st : ManagerState} {port threadId : Nat}
    {account : String} {inst : SimulatorInstance}
    (hWF : WF st) (hl : lookupKey (simKey port threadId account) st.instances = some inst) :
    inst.objId < st.nextId :=
  hWF.1 _ (lookupKey_mem hl)

end SimulatorManager

open SimulatorManager in
/-- **C1.** `SimulatorManager.get_simulator_instance` caches one
`SimulatorInstance` per `(port, thread, account)` key: (i) a repeated
lookup with the same key from the same thread returns the identical
instance and leaves the registry unchanged (construction happens only on
the first lookup); (ii) from any well-formed registry state, lookups
under two distinct `(port, thread, account)` keys return instances with
distinct object identities. -/
theorem get_simulator_instance_unique_per_key :
    (∀ (st : ManagerState) (port threadId : Nat) (account simulator_type : String),
      get_simulator_instance
          (get_simulator_instance st port threadId account simulator_type).2
          port threadId account simulator_type
        = get_simulator_instance st port threadId account simulator_type) ∧
    (∀ (st : ManagerState) (p₁ t₁ : Nat) (a₁ ty₁ : String) (p₂ t₂ : Nat) (a₂ ty₂ : String),
      WF st → (p₁, t₁, a₁) ≠ (p₂, t₂, a₂) →
      ((get_simulator_instance (get_simulator_instance st p₁ t₁ a₁ ty₁).2
          p₂ t₂ a₂ ty₂).1).objId ≠
        ((get_simulator_instance st p₁ t₁ a₁ ty₁).1).objId) := by
  constructor
  · intro st port threadId account simulator_type
    cases hl : lookupKey (simKey port threadId account) st.instances with
    | some inst =>
      rw [get_simulator_instance_hit simulator_type hl,
        get_simulator_instance_hit simulator_type hl]
    | none =>
      rw [get_simulator_instance_miss simulator_type hl]
      rw [get_simulator_instance_hit simulator_type (lookupKey_cons_self _ _ _)]
  · intro st p₁ t₁ a₁ ty₁ p₂ t₂ a₂ ty₂ hWF hne
    have hkey : simKey p₁ t₁ a₁ ≠ simKey p₂ t₂ a₂ := by
      intro h
      obtain ⟨hp, ht, ha⟩ := simKey_inj h
      exact hne (by simp [hp, ht, ha])
    cases hl₁ : lookupKey (simKey p₁ t₁ a₁) st.instances with
    | some i₁ =>
      rw [get_simulator_instance_hit ty₁ hl₁]
      cases hl₂ : lookupKey (simKey p₂ t₂ a₂) st.instances with
      | some i₂ =>
        rw [get_simulator_instance_hit ty₂ hl₂]
        intro h
        have hpair := List.inj_on_of_nodup_map hWF.2
          (lookupKey_mem hl₂) (lookupKey_mem hl₁) h
        exact hkey (congrArg Prod.fst hpair).symm
      | none =>
        rw [get_simulator_instance_miss ty₂ hl₂]
        exact Nat.ne_of_gt (get_objId_lt hWF hl₁)
    | none =>
      rw [get_simulator_instance_miss ty₁ hl₁]
      have hl₂ : lookupKey (simKey p₂ t₂ a₂)
          ((simKey p₁ t₁ a₁,
            (⟨st.nextId, p₁, a₁, ty₁⟩ : SimulatorInstance)) :: st.instances)
          = lookupKey (simKey p₂ t₂ a₂) st.instances :=
        lookupKey_cons_ne _ _ hkey
      cases hl₂' : lookupKey (simKey p₂ t₂ a₂) st.instances with
      | some i₂ =>
        rw [get_simulator_instance_hit ty₂ (hl₂.trans hl₂')]
        exact Nat.ne_of_lt (hWF.1 _ (lookupKey_mem hl₂'))
      | none =>
        rw [get_simulator_instance_miss ty₂ (hl₂.trans hl₂')]
        simp

open SimulatorManager in
/-- Witness for C1: from the empty registry, the keys
`(8001, thread 1, "alice")` and `(8001, thread 1, "bob")` yield
instances with distinct object ids, and a repeated lookup is stable. -/
theorem get_simulator_instance_unique_per_key_witness :
    (get_simulator_instance
        (get_simulator_instance ⟨[], 0⟩ 8001 1 "alice" "MuMu").2 8001 1 "alice" "MuMu"
      = get_simulator_instance ⟨[], 0⟩ 8001 1 "alice" "MuMu") ∧
    ((get_simulator_instance (get_simulator_instance ⟨[], 0⟩ 8001 1 "alice" "MuMu").2
        8001 1 "bob" "MuMu").1).objId ≠
      ((get_simulator_instance ⟨[], 0⟩ 8001 1 "alice" "MuMu").1).objId :=
  ⟨get_simulator_instance_unique_per_key.1 ⟨[], 0⟩ 8001 1 "alice" "MuMu",
   get_simulator_instance_unique_per_key.2 ⟨[], 0⟩ 8001 1 "alice" "MuMu" 8001 1 "bob" "MuMu"
     ⟨by simp, by simp⟩ (by simp)⟩

/-! ## ADBController registry (src/control/adb/adb_controller.py)

`ADBController.get_instance` caches controller objects in a class-level
dict under the key `f"{host}:{port}"`.  The constructor records the
*first* caller's `account` and `simulator_type` (they only feed the
logger context `get_logger(..., port, account, simulator_type)`). -/

structure ADBControllerObj where
  objId : Nat
  host : String
  port : Nat
  account : String
  simulator_type : String
deriving DecidableEq, Repr

/-- The key `f"{host}:{port}"`. -/
def adbKey (host : String) (port : Nat) : String :=
  ⟨host.data ++ ':' :: pyNatRepr port⟩

structure AdbState where
  instances : List (String × ADBControllerObj)
  nextId : Nat
deriving DecidableEq, Repr

namespace ADBController

def get_instance (st : AdbState) (port : Nat) (account simulator_type : String)
    (host : String := "127.0.0.1") : ADBControllerObj × AdbState :=
  match lookupKey (adbKey host port) st.instances with
  | some inst => (inst, st)
  | none =>
    (⟨st.nextId, host, port, account, simulator_type⟩,
     ⟨(adbKey host port,
        (⟨st.nextId, host, port, account, simulator_type⟩ : ADBControllerObj)) :: st.instances,
      st.nextId + 1⟩)

theorem get_instance_hit {st : AdbState} {port : Nat} {host : String}
    (account simulator_type : String) {inst : ADBControllerObj}
    (hl : lookupKey (adbKey host port) st.instances = some inst) :
    get_instance st port account simulator_type host = (inst, st) := by
  simp [get_instance, hl]

theorem get_instance_miss {st : AdbState} {port : Nat} {host : String}
    (account simulator_type : String)
    (hl : lookupKey (adbKey host port) st.instances = none) :
    get_instance st port account simulator_type host =
      (⟨st.nextId, host, port, account, simulator_type⟩,
       ⟨(adbKey host port,
          (⟨st.nextId, host, port, account, simulator_type⟩ : ADBControllerObj)) :: st.instances,
        st.nextId + 1⟩) := by
  simp [get_instance, hl]

end ADBController

open ADBController in
/-- **C10.** `ADBController.get_instance` caches controllers under the
key `"host:port"` only: a second call with the same host and port
returns the identical controller object and leaves the registry
unchanged even when the account or simulator type differ, and when the
key is fresh the constructed controller captures the first caller's
account (which seeds its logger context). -/
theorem get_instance_keyed_by_host_port_only :
    (∀ (st : AdbState) (port : Nat) (a₁ ty₁ a₂ ty₂ host : String),
      get_instance (get_instance st port a₁ ty₁ host).2 port a₂ ty₂ host
        = get_instance st port a₁ ty₁ host) ∧
    (∀ (st : AdbState) (port : Nat) (account simulator_type host : String),
      lookupKey (adbKey host port) st.instances = none →
      (get_instance st port account simulator_type host).1.account = account) := by
  constructor
  · intro st port a₁ ty₁ a₂ ty₂ host
    cases hl : lookupKey (adbKey host port) st.instances with
    | some inst =>
      rw [get_instance_hit a₁ ty₁ hl, get_instance_hit a₂ ty₂ hl]
    | none =>
      rw [get_instance_miss a₁ ty₁ hl,
        get_instance_hit a₂ ty₂ (lookupKey_cons_self _ _ _)]
  · intro st port account simulator_type host hl
    rw [ADBController.get_instance_miss account simulator_type hl]

open ADBController in
/-- Witness for C10: from the empty registry, a first call with account
`"alice"` followed by one with account `"bob"` on the same
`127.0.0.1:16384` key returns the very same controller, whose logger
context carries `"alice"`. -/
theorem get_instance_keyed_by_host_port_only_witness :
    (get_instance (get_instance ⟨[], 0⟩ 16384 "alice" "MuMu" "127.0.0.1").2
        16384 "bob" "MuMu" "127.0.0.1"
      = get_instance ⟨[], 0⟩ 16384 "alice" "MuMu" "127.0.0.1") ∧
    (get_instance ⟨[], 0⟩ 16384 "alice" "MuMu" "127.0.0.1").1.account = "alice" :=
  ⟨get_instance_keyed_by_host_port_only.1 ⟨[], 0⟩ 16384 "alice" "MuMu" "bob" "MuMu" "127.0.0.1",
   get_instance_keyed_by_host_port_only.2 ⟨[], 0⟩ 16384 "alice" "MuMu" "127.0.0.1" rfl⟩

/-! ## ImageController.get_simulator_ui_bounds
(src/simulator_models/image/image_controller.py)

The XML snapshot is modelled as the document-order list of `node`
elements that `root.findall('.//node')` yields, each carrying its
attribute dictionary.  The bounds parser follows the source expression
`bounds.replace("[", "").replace("]", ",").split(",")[:-1]` unpacked
through `map(int, ...)` into exactly four integers, where any parse
failure is the exception path of the enclosing `try`. -/

/-- Digits of a Python `int()` literal, `none` on empty or non-digit input. -/
def digitsVal : List Char → Option Nat
  | [] => none
  | cs =>
    cs.foldl (fun acc c =>
      match acc with
      | some a => if c.isDigit then some (a * 10 + (c.toNat - 48)) else none
      | none => none) (some 0)

/-- Python `int(s)`: surrounding whitespace tolerated, optional sign,
otherwise decimal digits only; `none` models a raised `ValueError`. -/
def pyInt : List Char → Option Int
  | cs =>
    let cs := ((cs.dropWhile Char.isWhitespace).reverse.dropWhile Char.isWhitespace).reverse
    match cs with
    | '-' :: rest => (digitsVal rest).map (fun n => -(n : Int))
    | '+' :: rest => (digitsVal rest).map (fun n => (n : Int))
    | _ => (digitsVal cs).map (fun n => (n : Int))

/-- Python `s.split(",")` over characters: always `#commas + 1` pieces. -/
def splitComma : List Char → List (List Char)
  | [] => [[]]
  | c :: rest =>
    match splitComma rest with
    | [] => [[c]]
    | h :: t => if c = ',' then [] :: h :: t else (c :: h) :: t

/-- `bounds.replace("[", "").replace("]", ",").split(",")[:-1]` fed to
`map(int, ...)` and unpacked as `left, top, right, bottom`. -/
def parseBounds (b : List Char) : Option (Int × Int × Int × Int) :=
  let s := (b.filter (fun c => c ≠ '[')).map (fun c => if c = ']' then ',' else c)
  let parts := (splitComma s).dropLast
  match parts.mapM pyInt with
  | some [l, t, r, bo] => some (l, t, r, bo)
  | _ => none

/-- One `node` element of the layout snapshot: its attribute dictionary. -/
structure XmlNode where
  attrs : List (String × String)
deriving DecidableEq, Repr

def XmlNode.get (n : XmlNode) (a : String) : Option String :=
  lookupKey a n.attrs

/-- `current_value and current_value == search_value`: an absent or
*empty* attribute value never matches (Python truthiness). -/
def nodeMatches (search_by search_value : String) (n : XmlNode) : Bool :=
  match n.get search_by with
  | some v => decide (v ≠ "" ∧ v = search_value)
  | none => false

inductive ScanResult where
  /-- A matching node with a well-formed bounds string: its centre point. -/
  | found (pt : Int × Int)
  /-- The whole node list was traversed without returning. -/
  | nomatch
  /-- A matching node whose bounds string fails to parse: the exception
  path of the enclosing `try`. -/
  | err
deriving DecidableEq, Repr

/-- The loop body for one node: `some r` stops the traversal, `none`
falls through to the next node (no attribute match, or a matching node
whose `bounds` attribute is absent or empty — `if bounds:` is falsy). -/
def scanStep (search_by search_value : String) (n : XmlNode) : Option ScanResult :=
  if nodeMatches search_by search_value n then
    match n.get "bounds" with
    | some b =>
      if b = "" then none
      else
        match parseBounds b.data with
        | some (l, t, r, bo) => some (.found ((l + r).fdiv 2, (t + bo).fdiv 2))
        | none => some .err
    | none => none
  else none

def scanNodes (search_by search_value : String) : List XmlNode → ScanResult
  | [] => .nomatch
  | n :: rest =>
    match scanStep search_by search_value n with
    | some r => r
    | none => scanNodes search_by search_value rest

/-- `get_simulator_ui_bounds(search_value, search_by='text')`.

Input `download_ok` is the result of `adb.download_window_dump` and
`nodes` the parsed snapshot.  The second component records whether the
uniquely-named snapshot file was deleted (`os.remove` runs only on the
scan-completed-without-match path); a found node returns its centre
immediately, and the parse-error path is caught by the outer `except`
returning `None` — in both cases the file is left on disk. -/
def get_simulator_ui_bounds (download_ok : Bool) (nodes : List XmlNode)
    (search_value : String) (search_by : String := "text") :
    Option (Int × Int) × Bool :=
  if download_ok then
    match scanNodes search_by search_value nodes with
    | .found pt => (some pt, false)
    | .nomatch => (none, true)
    | .err => (none, false)
  else (none, false)

theorem scanNodes_append_skip {search_by search_value : String} :
    ∀ (pre rest : List XmlNode),
      (∀ m ∈ pre, scanStep search_by search_value m = none) →
      scanNodes search_by search_value (pre ++ rest)
        = scanNodes search_by search_value rest := by
  intro pre
  induction pre with
  | nil => intro rest _; rfl
  | cons m pre ih =>
    intro rest hskip
    have hm : scanStep search_by search_value m = none := hskip m (by simp)
    simp only [List.cons_append, scanNodes, hm]
    exact ih rest (fun x hx => hskip x (by simp [hx]))

/-- **C2.** `get_simulator_ui_bounds` on a snapshot whose single node has
`resource-id="X"` and bounds `[100,200][300,400]` returns the integer
midpoint `(200, 300)`; in general the traversal is first-match in
document order: if every node before `n` falls through (no attribute
match, or a match without a bounds attribute) and `n` matches with a
parseable bounds string, the call returns `n`'s midpoint, whatever comes
after `n`. -/
theorem get_simulator_ui_bounds_first_match :
    ((get_simulator_ui_bounds true
        [⟨[("resource-id", "X"), ("bounds", "[100,200][300,400]")]⟩]
        "X" "resource-id").1 = some (200, 300)) ∧
    (∀ (search_by search_value : String) (pre post : List XmlNode)
        (n : XmlNode) (pt : Int × Int),
      (∀ m ∈ pre, scanStep search_by search_value m = none) →
      scanStep search_by search_value n = some (.found pt) →
      (get_simulator_ui_bounds true (pre ++ n :: post) search_value search_by).1
        = some pt) := by
  constructor
  · rfl
  · intro search_by search_value pre post n pt hskip hn
    have h1 : scanNodes search_by search_value (pre ++ n :: post)
        = scanNodes search_by search_value (n :: post) :=
      scanNodes_append_skip pre (n :: post) hskip
    have h2 : scanNodes search_by search_value (n :: post) = .found pt := by
      simp only [scanNodes, hn]
    simp [get_simulator_ui_bounds, h1, h2]

/-- Witness for C2: the document-order statement applied to the
singleton snapshot of the concrete example. -/
theorem get_simulator_ui_bounds_first_match_witness :
    (get_simulator_ui_bounds true
        ([] ++ (⟨[("resource-id", "X"), ("bounds", "[100,200][300,400]")]⟩ : XmlNode) :: [])
        "X" "resource-id").1 = some (200, 300) :=
  get_simulator_ui_bounds_first_match.2 "resource-id" "X" [] []
    ⟨[("resource-id", "X"), ("bounds", "[100,200][300,400]")]⟩ (200, 300)
    (by simp) (by decide)

/-- Counterexample to **C3** as stated: on a call whose snapshot
contains a matching node, `get_simulator_ui_bounds` returns the centre
point from inside the loop and the uniquely-named snapshot file is *not*
deleted (second component `false`), so the file is not removed on every
call. -/
theorem get_simulator_ui_bounds_match_keeps_file :
    get_simulator_ui_bounds true
        [⟨[("resource-id", "com.mumu.launcher:id/close"), ("bounds", "[0,0][10,10]")]⟩]
        "com.mumu.launcher:id/close" "resource-id"
      = (some (5, 5), false) := by
  decide

/-- **C3 (amended).** The snapshot file is deleted exactly on the
scan-completed-without-match path: a successful download returns
`(notFound, file deleted)` iff the document-order traversal finishes
with no match (a found node or a bounds parse error leaves the file on
disk). -/
theorem get_simulator_ui_bounds_deletes_iff_nomatch :
    ∀ (nodes : List XmlNode) (search_value search_by : String),
      get_simulator_ui_bounds true nodes search_value search_by = (none, true) ↔
        scanNodes search_by search_value nodes = .nomatch := by
  intro nodes search_value search_by
  cases h : scanNodes search_by search_value nodes <;>
    simp [get_simulator_ui_bounds, h]

/-- Witness for C3 (amended): the empty snapshot scans to no-match, so
the call reports notFound with the snapshot file removed. -/
theorem get_simulator_ui_bounds_deletes_iff_nomatch_witness :
    get_simulator_ui_bounds true [] "X" "text" = (none, true) :=
  (get_simulator_ui_bounds_deletes_iff_nomatch [] "X" "text").mpr rfl

/-! ## ADBController.connect / disconnect
(src/control/adb/adb_controller.py)

A `subprocess.run` invocation either completes with captured stdout and
an exit code, or raises one of the distinguished exception classes the
source catches.  `connect` inspects the stdout text; `disconnect` runs
the command inside a bare `try` and returns `True` whenever no exception
escapes `subprocess.run`. -/

inductive CmdOutcome where
  | completed (stdout : String) (returncode : Int)
  | timeoutExpired
  | fileNotFound
  | permissionError
  | otherError (msg : String)
deriving DecidableEq, Repr

def pyStrip (s : List Char) : List Char :=
  ((s.dropWhile Char.isWhitespace).reverse.dropWhile Char.isWhitespace).reverse

def pyLower (s : List Char) : List Char :=
  s.map Char.toLower

/-- Python `needle in hay` on strings (contiguous substring). -/
def pyContains (needle : List Char) : List Char → Bool
  | [] => needle.isEmpty
  | c :: rest => needle.isPrefixOf (c :: rest) || pyContains needle rest

/-- `stdout = result.stdout.strip() if result.stdout else "无输出"`
followed by `"connected" in stdout.lower() or "already" in stdout.lower()`. -/
def connectOutputMatches (out : String) : Bool :=
  let stdout := if out = "" then "无输出".data else pyStrip out.data
  pyContains "connected".data (pyLower stdout) || pyContains "already".data (pyLower stdout)

namespace ADBController

def connect (r : CmdOutcome) : Bool :=
  match r with
  | .completed out _rc => connectOutputMatches out
  | .timeoutExpired => false
  | .fileNotFound => false
  | .permissionError => false
  | .otherError _ => false

def disconnect (r : CmdOutcome) : Bool :=
  match r with
  | .completed _ _ => true
  | _ => false

end ADBController

/-- Counterexample to **C4** as stated: `disconnect` does not determine
success by matching expected substrings in the command output — on the
output `"error: no such device"`, which contains neither `"connected"`
nor `"already"` (the very output that makes `connect` report failure),
`disconnect` still returns success. -/
theorem adb_disconnect_ignores_output :
    ADBController.disconnect (.completed "error: no such device" 0) = true ∧
    ADBController.connect (.completed "error: no such device" 0) = false := by
  decide

/-- **C4 (amended).** `connect` determines success purely by substring
matching on stdout ("connected" or "already", case-insensitively, exit
code ignored), while `disconnect` reports success whenever the command
completes without an exception, regardless of output; for both, every
failure cause — non-matching output, timeout, missing binary, permission
error, any other exception — is reported as a boolean `false`, never
raised to the caller. -/
theorem adb_connect_disconnect_error_handling :
    (∀ (out : String) (rc : Int),
      ADBController.connect (.completed out rc) = connectOutputMatches out) ∧
    (∀ rc : Int, ADBController.connect (.completed "already connected to 127.0.0.1:16384" rc) = true) ∧
    (∀ rc : Int, ADBController.connect (.completed "connected to 127.0.0.1:16384" rc) = true) ∧
    (∀ rc : Int, ADBController.connect (.completed "cannot connect to 127.0.0.1:16384" rc) = false) ∧
    (ADBController.connect .timeoutExpired = false ∧
      ADBController.connect .fileNotFound = false ∧
      ADBController.connect .permissionError = false ∧
      ∀ m, ADBController.connect (.otherError m) = false) ∧
    ((∀ (out : String) (rc : Int), ADBController.disconnect (.completed out rc) = true) ∧
      ∀ m, ADBController.disconnect (.otherError m) = false) := by
  refine ⟨fun out rc => rfl, fun rc => rfl, fun rc => rfl, fun rc => rfl,
    ⟨rfl, rfl, rfl, fun m => rfl⟩, ⟨fun out rc => rfl, fun m => rfl⟩⟩

/-! ## ImageController.check_resolution_ratio
(src/simulator_models/image/image_controller.py)

The outcome records which branch of the if/elif chain runs.  Only the
final `else` branch executes `return True`; the size, ratio and
orientation branches log and fall through, so Python returns `None`
(falsy) there.  Python's float division of the max/min dimensions is
modelled exactly over `ℚ` (at every claimed input the quotients are
exact, so the 1%-tolerance comparison agrees with the float one). -/

inductive ResolutionCheck where
  /-- `resolution is None`: `raise Exception("模拟器分辨率获取失败")`. -/
  | raisedNoResolution
  /-- Current resolution below target in both orientations: logs an
  error and falls through, returning `None`. -/
  | sizeFail
  /-- Aspect ratio off by more than 1%: logs an error, returns `None`. -/
  | ratioFail
  /-- Size and ratio pass but portrait/landscape orientation differs
  from the target: logs a *warning*, returns `None`. -/
  | orientationWarn
  /-- `return True`. -/
  | passed
deriving DecidableEq, Repr

def check_resolution_ratio (resolution : Option (Nat × Nat))
    (target_width target_height : Nat) : ResolutionCheck :=
  match resolution with
  | none => .raisedNoResolution
  | some (current_width, current_height) =>
    let target_ratio : ℚ :=
      (max target_width target_height : ℚ) / (min target_width target_height : ℚ)
    let current_ratio : ℚ :=
      (max current_width current_height : ℚ) / (min current_width current_height : ℚ)
    if (current_width < target_width ∧ current_height < target_height) ∨
        (current_width < target_height ∧ current_height < target_width) then
      .sizeFail
    else if |current_ratio - target_ratio| > 1 / 100 then
      .ratioFail
    else if decide (current_width < current_height) ≠ decide (target_width < target_height) then
      .orientationWarn
    else
      .passed

/-- Counterexample to **C5** as stated: for target `(1920, 1080)` and
current resolution `(1080, 1920)` the dimensions are sufficient and the
aspect ratio matches exactly (the call reaches the orientation branch),
yet the function does not return `True` — it logs the orientation
warning and falls through returning `None`, so "returns true exactly
when the dimensions are sufficient and the ratio matches" fails. -/
theorem check_resolution_ratio_orientation_not_true :
    check_resolution_ratio (some (1080, 1920)) 1920 1080 = .orientationWarn ∧
    ResolutionCheck.orientationWarn ≠ .passed := by
  constructor
  · show check_resolution_ratio (some (1080, 1920)) 1920 1080 = .orientationWarn
    unfold check_resolution_ratio
    norm_num
  · decide

/-- **C5 (amended).** `check_resolution_ratio` returns `True` exactly
when the dimensions are sufficient, the aspect ratio matches within the
1% tolerance, *and* the orientation matches the target; an orientation
mismatch with sufficient dimensions and matching ratio takes the
warning branch, which logs a warning (not an error) but still falls
through to a falsy `None` return.  Concretely for target `(1920, 1080)`:
current `(1920, 1080)` returns `True`, `(1080, 1920)` lands in the
orientation-warning branch, `(800, 600)` fails the minimum-size check;
and in general a `True` return implies the orientation agrees. -/
theorem check_resolution_ratio_requires_orientation :
    check_resolution_ratio (some (1920, 1080)) 1920 1080 = .passed ∧
    check_resolution_ratio (some (1080, 1920)) 1920 1080 = .orientationWarn ∧
    check_resolution_ratio (some (800, 600)) 1920 1080 = .sizeFail ∧
    (∀ (cw ch tw th : Nat),
      check_resolution_ratio (some (cw, ch)) tw th = .passed →
      decide (cw < ch) = decide (tw < th)) := by
  refine ⟨?_, ?_, ?_, ?_⟩
  · unfold check_resolution_ratio; norm_num
  · unfold check_resolution_ratio; norm_num
  · unfold check_resolution_ratio; norm_num
  · intro cw ch tw th h
    unfold check_resolution_ratio at h
    dsimp only at h
    split_ifs at h with h₁ h₂ h₃
    exact not_ne_iff.mp h₃

/-- Witness for C5 (amended): the orientation consequence applied at the
matching-orientation input `(1920, 1080)`. -/
theorem check_resolution_ratio_requires_orientation_witness :
    decide (1920 < 1080) = decide (1920 < 1080) :=
  check_resolution_ratio_requires_orientation.2.2.2 1920 1080 1920 1080
    check_resolution_ratio_requires_orientation.1

/-! ## MuMuSimulator.launcher_simulator_game
(src/simulator/implementations/mumu/simulator_mumu.py)

The environment supplies, per call index, the result of each
`_try_launch` (locate-and-tap of the icon) and of each
`_get_simulator_screen_info` (the parsed page indicator: `some (count,
page)` for "第count屏，共page屏", `none` when the indicator node is
missing or malformed).  The constructor initialises `self.page = 0` and
`self.count = 0`; `_refresh_screen` overwrites them only on a successful
parse.  `range(1, self.page + 1)` is evaluated once, when the loop is
entered. -/

inductive Dir where
  | left
  | right
deriving DecidableEq, Repr

structure LauncherEnv where
  /-- Result of `close_simulator_game` (guards the initial refresh). -/
  close_ok : Bool
  /-- Result of the i-th `_try_launch`, 0-indexed. -/
  try_launch : Nat → Bool
  /-- Result of the i-th `_get_simulator_screen_info`, 0-indexed. -/
  screen_info : Nat → Option (Nat × Nat)

structure LauncherState where
  count : Nat
  page : Nat
  tries : Nat
  refreshes : Nat
  swipes : List Dir
deriving DecidableEq, Repr

def refresh_screen (env : LauncherEnv) (s : LauncherState) : LauncherState :=
  match env.screen_info s.refreshes with
  | some (c, p) => { s with count := c, page := p, refreshes := s.refreshes + 1 }
  | none => { s with refreshes := s.refreshes + 1 }

def try_launch (env : LauncherEnv) (s : LauncherState) : Bool × LauncherState :=
  (env.try_launch s.tries, { s with tries := s.tries + 1 })

/-- The swipe the loop issues at a given attempt number: when the
current page index is `> 1` the direction alternates on the parity of
the (1-based) attempt counter, left first; from the home page the swipe
is always to the right. -/
def swipe_direction (count attempt : Nat) : Dir :=
  if count > 1 then (if attempt % 2 = 1 then .left else .right) else .right

/-- `for attempt in range(1, self.page + 1)`: `remaining` counts the
attempts left of the bound captured at loop entry. -/
def launch_loop (env : LauncherEnv) : Nat → Nat → LauncherState → Bool × LauncherState
  | _, 0, s => (false, s)
  | attempt, remaining + 1, s =>
    let s := { s with swipes := s.swipes ++ [swipe_direction s.count attempt] }
    let s := refresh_screen env s
    let (hit, s) := try_launch env s
    if hit then (true, s) else launch_loop env (attempt + 1) remaining s

def launcher_simulator_game (env : LauncherEnv) : Bool × LauncherState :=
  let s0 : LauncherState := ⟨0, 0, 0, 0, []⟩
  let s1 := if env.close_ok then refresh_screen env s0 else s0
  let (hit, s2) := try_launch env s1
  if hit then (true, s2) else launch_loop env 1 s2.page s2

/-- Counterexample to **C6** as stated: in the claimed scenario — close
succeeds, the locator fails on attempts 1–2 and succeeds on attempt 3,
the indicator reports page 1 of 3 initially and page 2 of 3 after the
first swipe — the two swipes performed are `[right, right]`, not the
`[right, left]` an alternating rule starting from "right" prescribes:
the second loop iteration has attempt counter 2 (even), so the `count >
1` branch also swipes right. -/
theorem launcher_swipes_do_not_alternate_from_right :
    launcher_simulator_game
        ⟨true, fun i => decide (2 ≤ i), fun i => if i = 0 then some (1, 3) else some (2, 3)⟩
      = (true, ⟨2, 3, 3, 3, [Dir.right, Dir.right]⟩) ∧
    [Dir.right, Dir.right] ≠ [Dir.right, Dir.left] := by
  constructor
  · rfl
  · decide

/-- **C6 (amended).** Given a locator that fails on attempts 1–2 and
succeeds on attempt 3 with total pages 3, exactly 2 swipes are performed
before success (the third `_try_launch` returns true and ends the
search).  The direction each iteration follows the source rule
`swipe_direction`: always right while the current page index is ≤ 1, and
for a current page index > 1 it alternates on the parity of the global
attempt counter, left on odd attempts.  Starting from page 1 this gives
the swipe trace `[right, right]`; starting the same scenario from page 2
it gives `[left, right]`. -/
theorem launcher_two_swipes_then_success :
    (launcher_simulator_game
        ⟨true, fun i => decide (2 ≤ i), fun i => if i = 0 then some (1, 3) else some (2, 3)⟩
      = (true, ⟨2, 3, 3, 3, [swipe_direction 1 1, swipe_direction 2 2]⟩)) ∧
    ([swipe_direction 1 1, swipe_direction 2 2] = [Dir.right, Dir.right]) ∧
    (launcher_simulator_game ⟨true, fun i => decide (2 ≤ i), fun _ => some (2, 3)⟩
      = (true, ⟨2, 3, 3, 3, [Dir.left, Dir.right]⟩)) := by
  exact ⟨rfl, rfl, rfl⟩

theorem launch_loop_all_false (env : LauncherEnv)
    (h : ∀ i, env.try_launch i = false) :
    ∀ (remaining attempt : Nat) (s : LauncherState),
      (launch_loop env attempt remaining s).1 = false := by
  intro remaining
  induction remaining with
  | zero => intro attempt s; rfl
  | succ r ih =>
    intro attempt s
    simp only [launch_loop, try_launch, h]
    exact ih (attempt + 1) _

/-- **C7.** (i) A malformed or missing page-indicator node (every
`_get_simulator_screen_info` call fails to parse) leaves `self.page` at
its constructor value 0, so when the first locate attempt fails the
multi-page search runs zero swipe iterations and the launch reports
failure; (ii) in general, when every locate attempt fails, the launch
returns the failure value `false` — it never raises. -/
theorem launcher_aborts_without_indicator :
    (∀ (close_ok : Bool) (tl : Nat → Bool),
      tl 0 = false →
      (launcher_simulator_game ⟨close_ok, tl, fun _ => none⟩).1 = false ∧
        (launcher_simulator_game ⟨close_ok, tl, fun _ => none⟩).2.swipes = []) ∧
    (∀ env : LauncherEnv, (∀ i, env.try_launch i = false) →
      (launcher_simulator_game env).1 = false) := by
  constructor
  · intro close_ok tl htl
    cases close_ok <;>
      simp [launcher_simulator_game, refresh_screen, try_launch, launch_loop, htl]
  · intro env h
    unfold launcher_simulator_game
    simp only [try_launch, h]
    exact launch_loop_all_false env h _ _ _

/-- Witness for C7: with the indicator always unparseable and a locator
that never finds the icon, the launch performs no swipe and returns
failure. -/
theorem launcher_aborts_without_indicator_witness :
    (launcher_simulator_game ⟨true, fun _ => false, fun _ => none⟩).1 = false ∧
      (launcher_simulator_game ⟨true, fun _ => false, fun _ => none⟩).2.swipes = [] :=
  launcher_aborts_without_indicator.1 true (fun _ => false) rfl

/-! ## PluginManager.execute_plugins_by_priority
(src/simulator_models/plugins/plugin_manager.py)

A registered plugin is its name, declared priority, `can_execute`
predicate value and the outcome of its `execute` (`Except.error` models
a raised fault).  The registry dict is the registration-order list with
distinct names; `plugins_to_execute.sort(key=lambda p: p.priority)` is
Python's stable ascending sort, modelled by `List.insertionSort`; the
result dict is the insertion-order association list. -/

structure Plugin where
  name : String
  priority : Int
  can_execute : Bool
  run : Except String String
deriving Repr

def priority_le (a b : Plugin) : Prop := a.priority ≤ b.priority

instance : DecidableRel priority_le := fun a b =>
  inferInstanceAs (Decidable (a.priority ≤ b.priority))

instance : IsTotal Plugin priority_le := ⟨fun a b => Int.le_total a.priority b.priority⟩

instance : IsTrans Plugin priority_le := ⟨fun _ _ _ => le_trans⟩

inductive PluginResult where
  | ok (v : String)
  | err (msg : String)
deriving DecidableEq, Repr

namespace PluginManager

def get_plugin (reg : List Plugin) (n : String) : Option Plugin :=
  reg.find? (fun p => p.name == n)

/-- `execute(name)`: NotFound and NotExecutable are raised `ValueError`s,
a plugin fault propagates; all are `Except.error` here. -/
def execute_plugin (reg : List Plugin) (n : String) : Except String String :=
  match get_plugin reg n with
  | none => .error ("插件 " ++ n ++ " 不存在")
  | some p =>
    if p.can_execute then p.run else .error ("插件 " ++ n ++ " 当前无法执行")

def resolved_plugins (reg : List Plugin) (names : List String) : List Plugin :=
  names.filterMap (get_plugin reg)

def execution_order (reg : List Plugin) (names : List String) : List Plugin :=
  List.insertionSort priority_le (resolved_plugins reg names)

def execute_plugins_by_priority (reg : List Plugin) (names : List String) :
    List (String × PluginResult) :=
  (execution_order reg names).map (fun p =>
    (p.name,
      match execute_plugin reg p.name with
      | .ok v => .ok v
      | .error e => .err e))

end PluginManager

open PluginManager in
/-- **C8.** With plugins of priorities 50, 10, 30 (registered in that
order) and the priority-10 plugin raising a fault, the batch executes in
ascending priority order `[10, 30, 50]` for either argument order, the
fault becomes that plugin's error entry, and the later plugins still run
and appear in the result map.  In general the execution order is sorted
ascending by priority, and every resolved plugin contributes an entry to
the result map — a single failure never halts the batch. -/
theorem execute_plugins_by_priority_ordered_and_isolated :
    (execute_plugins_by_priority
        [⟨"upgrade", 50, true, .ok "r50"⟩, ⟨"daily", 10, true, .error "boom"⟩,
          ⟨"mail", 30, true, .ok "r30"⟩]
        ["upgrade", "daily", "mail"]
      = [("daily", .err "boom"), ("mail", .ok "r30"), ("upgrade", .ok "r50")]) ∧
    (execute_plugins_by_priority
        [⟨"upgrade", 50, true, .ok "r50"⟩, ⟨"daily", 10, true, .error "boom"⟩,
          ⟨"mail", 30, true, .ok "r30"⟩]
        ["mail", "upgrade", "daily"]
      = [("daily", .err "boom"), ("mail", .ok "r30"), ("upgrade", .ok "r50")]) ∧
    (∀ (reg : List Plugin) (names : List String),
      List.Sorted priority_le (execution_order reg names)) ∧
    (∀ (reg : List Plugin) (names : List String) (p : Plugin),
      p ∈ resolved_plugins reg names →
      ∃ r, (p.name, r) ∈ execute_plugins_by_priority reg names) := by
  refine ⟨by decide, by decide, ?_, ?_⟩
  · intro reg names
    exact List.sorted_insertionSort priority_le (resolved_plugins reg names)
  · intro reg names p hp
    have hmem : p ∈ execution_order reg names :=
      ((List.perm_insertionSort priority_le (resolved_plugins reg names)).mem_iff).mpr hp
    exact ⟨_, List.mem_map.mpr ⟨p, hmem, rfl⟩⟩

open PluginManager in
/-- Witness for C8: the faulting priority-10 plugin itself still has an
entry in the result map of the concrete batch. -/
theorem execute_plugins_by_priority_ordered_and_isolated_witness :
    ∃ r, ("daily", r) ∈ execute_plugins_by_priority
        [⟨"upgrade", 50, true, .ok "r50"⟩, ⟨"daily", 10, true, .error "boom"⟩,
          ⟨"mail", 30, true, .ok "r30"⟩]
        ["upgrade", "daily", "mail"] :=
  execute_plugins_by_priority_ordered_and_isolated.2.2.2
    [⟨"upgrade", 50, true, .ok "r50"⟩, ⟨"daily", 10, true, .error "boom"⟩,
      ⟨"mail", 30, true, .ok "r30"⟩]
    ["upgrade", "daily", "mail"]
    ⟨"daily", 10, true, .error "boom"⟩
    (by
      rw [show resolved_plugins
          [⟨"upgrade", 50, true, .ok "r50"⟩, ⟨"daily", 10, true, .error "boom"⟩,
            ⟨"mail", 30, true, .ok "r30"⟩]
          ["upgrade", "daily", "mail"]
        = [⟨"upgrade", 50, true, .ok "r50"⟩, ⟨"daily", 10, true, .error "boom"⟩,
            ⟨"mail", 30, true, .ok "r30"⟩] from rfl]
      exact List.mem_cons_of_mem _ (List.mem_cons_self _ _))

/-! ## PluginBase.execute_with_error_handling
(src/plugins/base/plugin_base.py)

One call to `execute` either returns a result dict or raises a fault;
the interactive error handler answers each fault with a resolution
string.  The two input lists give, in order, the outcome of successive
`execute` invocations and the handler's successive resolutions (so a
`retry` recursion consumes the tails).  `reinvocations` instruments how
many recursive re-invocations the returned result went through;
`outOfTrace` is the modelling artifact for an execution that would need
more of either trace — consistent with the unbounded recursion an
always-retry resolution causes in the source. -/

inductive ExecOutcome where
  /-- `execute` returned normally: its result is passed through. -/
  | returned (v : String)
  /-- `{"status": "success", ..., "user_resolved": True}`. -/
  | userResolved
  /-- `{"status": "skipped", ..., "skipped": True}`. -/
  | skipped
  /-- `{"status": "error", ..., "error": str(e)}` for any unrecognized
  resolution value. -/
  | errorResult (msg : String)
deriving DecidableEq, Repr

inductive EWEHResult where
  | ret (o : ExecOutcome) (reinvocations : Nat)
  /-- `raise Exception("用户手动停止任务: ...")` propagating out. -/
  | raised (msg : String)
  | outOfTrace
deriving DecidableEq, Repr

def execute_with_error_handling (name : String) :
    List (Except String String) → List String → EWEHResult
  | [], _ => .outOfTrace
  | .ok v :: _, _ => .ret (.returned v) 0
  | .error _ :: _, [] => .outOfTrace
  | .error e :: execs, r :: resols =>
    if r = "resolved" then .ret .userResolved 0
    else if r = "retry" then
      match execute_with_error_handling name execs resols with
      | .ret o n => .ret o (n + 1)
      | x => x
    else if r = "skip" then .ret .skipped 0
    else if r = "stop" then .raised ("用户手动停止任务: " ++ name)
    else .ret (.errorResult e) 0

/-- **C9.** The handler's resolution drives the outcome of
`execute_with_error_handling` on a fault: `"resolved"` synthesizes a
success result, `"retry"` re-invokes the same execution recursively (the
recursive outcome is returned with its re-invocation count bumped),
`"skip"` synthesizes a skipped result, `"stop"` raises a fatal abort
that propagates, and any other value synthesizes an error result carrying
the fault message; in particular, with a fault on every invocation and
the resolution sequence `[retry, retry, resolved]`, the call returns the
success result after exactly two internal re-invocations. -/
theorem execute_with_error_handling_resolutions :
    (∀ (name e : String) (execs : List (Except String String)) (resols : List String),
      execute_with_error_handling name (.error e :: execs) ("resolved" :: resols)
        = .ret .userResolved 0) ∧
    (∀ (name e : String) (execs : List (Except String String)) (resols : List String),
      execute_with_error_handling name (.error e :: execs) ("retry" :: resols)
        = match execute_with_error_handling name execs resols with
          | .ret o n => .ret o (n + 1)
          | x => x) ∧
    (∀ (name e : String) (execs : List (Except String String)) (resols : List String),
      execute_with_error_handling name (.error e :: execs) ("skip" :: resols)
        = .ret .skipped 0) ∧
    (∀ (name e : String) (execs : List (Except String String)) (resols : List String),
      execute_with_error_handling name (.error e :: execs) ("stop" :: resols)
        = .raised ("用户手动停止任务: " ++ name)) ∧
    (∀ (name e r : String) (execs : List (Except String String)) (resols : List String),
      r ≠ "resolved" → r ≠ "retry" → r ≠ "skip" → r ≠ "stop" →
      execute_with_error_handling name (.error e :: execs) (r :: resols)
        = .ret (.errorResult e) 0) ∧
    (execute_with_error_handling "daily" [.error "E", .error "E", .error "E"]
        ["retry", "retry", "resolved"]
      = .ret .userResolved 2) := by
  refine ⟨fun name e execs resols => rfl, fun name e execs resols => rfl,
    ?_, ?_, ?_, by decide⟩
  · intro name e execs resols
    simp [execute_with_error_handling]
  · intro name e execs resols
    simp [execute_with_error_handling]
  · intro name e r execs resols h₁ h₂ h₃ h₄
    simp [execute_with_error_handling, h₁, h₂, h₃, h₄]

/-- Witness for C9: the unrecognized-resolution branch applied to the
concrete resolution value `"ignore"`. -/
theorem execute_with_error_handling_resolutions_witness :
    execute_with_error_handling "daily" [.error "E"] ["ignore"]
      = .ret (.errorResult "E") 0 :=
  execute_with_error_handling_resolutions.2.2.2.2.1 "daily" "E" "ignore" [] []
    (by decide) (by decide) (by decide) (by decide)

end GameHelper
